import Mathlib

/-!
Shallow embedding of `jet/forms.py` from django-jet-reboot.

The module defines four Django forms: `AddBookmarkForm`, `RemoveBookmarkForm`,
`ToggleApplicationPinForm` and `ModelLookupForm`.  Their `clean`, `save` and
`lookup` methods are translated here as pure functions over explicit state:
the database tables become lists of records, exceptions become `Except`,
and the Django ORM calls (`filter`, `get`, `distinct`, `count`, slicing)
become the corresponding list operations.
-/

/-- A user of the admin site.  Django exposes `is_authenticated`, `is_staff`
and `has_perm` on the request's user; permissions held are modelled as the
list of permission code strings for which `has_perm` returns true.  Django
model instances compare equal iff they have the same primary key, so users
are identified by `id`. -/
structure User where
  id : Nat
  is_authenticated : Bool
  is_staff : Bool
  perms : List String
deriving DecidableEq

/-- Django `user.has_perm(code)`: membership in the granted permission set. -/
def User.has_perm (u : User) (p : String) : Bool :=
  u.perms.contains p

/-- Modelled from the spec: `jet.utils.user_is_authenticated` is not under
`src/`; per the spec the user object exposes `is_authenticated`, and the
helper reads that flag (it only papers over old Django versions where the
flag was a method). -/
def user_is_authenticated (u : User) : Bool :=
  u.is_authenticated

/-- The HTTP request context handed to each form constructor; the forms only
use `request.user`. -/
structure Request where
  user : User
deriving DecidableEq

/-- The two exception kinds these methods can raise, plus the exceptions the
ORM itself raises on the paths `lookup` can reach: Python `TypeError` from
`reduce` over an empty sequence, Django's `AssertionError` on negative
queryset slicing, and `MultipleObjectsReturned` from `Model.objects.get`. -/
inductive JetError where
  | validationError (msg : String)
  | notImplementedError
  | typeError
  | assertionError
  | multipleObjectsReturned
deriving DecidableEq

/-- Modelled from the spec: the `Bookmark` model (`jet/models.py` is not
under `src/`).  The spec gives its fields as url, title and owning user.
`user_id` is `none` while the foreign key is unset on a fresh instance. -/
structure Bookmark where
  pk : Nat
  url : String
  title : String
  user_id : Option Nat
deriving DecidableEq

/-- Modelled from the spec: the `PinnedApplication` model (`jet/models.py`
is not under `src/`).  The spec gives its fields as app_label and owning
user; existence of a record means "pinned". -/
structure PinnedApplication where
  pk : Nat
  app_label : String
  user_id : Nat
deriving DecidableEq

/-- The `PinnedApplication` table: its rows plus the next primary key the
database will hand out on insert. -/
structure PinDb where
  rows : List PinnedApplication
  next_pk : Nat
deriving DecidableEq

/-- A well-formed table never contains a row whose primary key is one the
database has yet to hand out. -/
def PinDb.wf (db : PinDb) : Prop :=
  ∀ p ∈ db.rows, p.pk < db.next_pk

/-- A row of the model being searched by `ModelLookupForm`.  `fields` maps
field names to their string values for the `icontains` filter; `label` is
what `get_model_instance_label` renders for the instance. -/
structure Row where
  pk : Nat
  label : String
  fields : List (String × String)
deriving DecidableEq

/-- Reads a named field off a row, as the ORM does when filtering on
`field__icontains`.  Field names used in filters are assumed to exist on the
model (Django would raise `FieldError` otherwise, a path no claim reaches);
a missing name resolves to the empty string. -/
def Row.fieldVal (r : Row) (f : String) : String :=
  ((r.fields.lookup f).getD "")

/-- Whether the second character list is an initial segment of the first. -/
def beginsWith : List Char → List Char → Bool
  | _, [] => true
  | [], _ :: _ => false
  | c :: cs, p :: ps => c == p && beginsWith cs ps

/-- Whether the second character list occurs contiguously in the first. -/
def hasSub : List Char → List Char → Bool
  | [], pat => pat.isEmpty
  | c :: cs, pat => beginsWith (c :: cs) pat || hasSub cs pat

/-- Python `str.startswith`, used for the `codename__startswith` filters. -/
def strStartsWith (s pat : String) : Bool :=
  beginsWith s.data pat.data

/-- Django `__icontains`: case-insensitive substring test.  The SQL
`LIKE '%%'` produced by an empty needle matches every (non-null) value. -/
def icontains (hay needle : String) : Bool :=
  hasSub (hay.data.map Char.toLower) (needle.data.map Char.toLower)

/-- The model class resolved by `get_model(app_label, model)`, together with
the duck-typed autocomplete hooks `lookup` probes with `hasattr`:
`autocomplete_search_fields` is modelled by the field-name list the callable
returns, `autocomplete_search_query` by the callable itself (query and
optional user to a queryset), `autocomplete_search_filter` by the callable
itself (a page of items to a transformed page).  `objects` is the model's
table and `ct` its content-type id; `name` stands in for the class repr
interpolated into the permission-denied message. -/
structure ModelCls where
  name : String
  ct : Nat
  objects : List Row
  autocomplete_search_fields : Option (List String)
  autocomplete_search_query : Option (String → Option User → List Row)
  autocomplete_search_filter : Option (List Row → List Row)

/-- A row of Django's `auth_permission` table: a codename scoped to a
content type. -/
structure Perm where
  codename : String
  content_type : Nat
deriving DecidableEq

/-- The framework state `ModelLookupForm.clean` consults: the model registry
behind `get_model` and the permission table behind `Permission.objects`. -/
structure LookupEnv where
  registry : List ((String × String) × ModelCls)
  permissions : List Perm

/-- The raw submitted data of a `ModelLookupForm`; `none` means the query
parameter was omitted.  `app_label` and `model` are required fields, so a
form that validates has them present. -/
structure LookupRaw where
  app_label : String
  model : String
  q : Option String
  page : Option Int
  page_size : Option Int
  object_id : Option Int

/-- The form's `cleaned_data` dictionary; an `Option` field is absent from
the dictionary when it is `none`. -/
structure LookupCleaned where
  app_label : String
  model : String
  q : Option String
  page : Option Int
  page_size : Option Int

/-- Django's per-field cleaning for this form, as run by `is_valid()` before
`clean` is called: a `CharField(required=False)` cleans an omitted or empty
value to `''` and is therefore always present in `cleaned_data`, while an
`IntegerField(required=False)` cleans an omitted value to `None`. -/
def cleanFields (raw : LookupRaw) : LookupCleaned :=
  { app_label := raw.app_label
    model := raw.model
    q := some (raw.q.getD "")
    page := raw.page
    page_size := raw.page_size }

/-- Python `x or d` for a possibly-missing integer: `None` and `0` are falsy
and give the default. -/
def pyOr (v : Option Int) (d : Int) : Int :=
  match v with
  | none => d
  | some x => if x = 0 then d else x

/-- The item dictionaries `lookup` returns: primary key and display text. -/
structure Item where
  id : Nat
  text : String
deriving DecidableEq

/-- Modelled from the spec: `jet.utils.get_model_instance_label` is not
under `src/`; the spec says an item's text is the instance's human-readable
display label, carried here on the row. -/
def get_model_instance_label (r : Row) : String :=
  r.label

/-- The submitted fields of `AddBookmarkForm` (`Meta.fields = ['url', 'title']`). -/
structure BookmarkData where
  url : String
  title : String
deriving DecidableEq

/-- `AddBookmarkForm.clean`: after the superclass field cleaning, the
requester must be an authenticated staff user and hold
`jet.change_bookmark`, else `ValidationError('error')`. -/
def AddBookmarkForm.clean (request : Request) (data : BookmarkData) :
    Except JetError BookmarkData :=
  if !user_is_authenticated request.user || !request.user.is_staff then
    .error (.validationError "error")
  else if !request.user.has_perm "jet.change_bookmark" then
    .error (.validationError "error")
  else
    .ok data

/-- `AddBookmarkForm.save`: overwrites `instance.user` with `request.user`,
then runs the `ModelForm` save, which inserts the instance when `commit` is
true.  Returns the instance and the resulting `Bookmark` table. -/
def AddBookmarkForm.save (request : Request) (inst0 : Bookmark)
    (commit : Bool) (db : List Bookmark) : Bookmark × List Bookmark :=
  let inst := { inst0 with user_id := some request.user.id }
  if commit then (inst, db ++ [inst]) else (inst, db)

/-- `RemoveBookmarkForm.clean`: the requester must be an authenticated staff
user and must be the bound bookmark's owner (`instance.user !=
request.user` compares model instances, i.e. primary keys), else
`ValidationError('error')`. -/
def RemoveBookmarkForm.clean (request : Request) (inst : Bookmark) :
    Except JetError Unit :=
  if !user_is_authenticated request.user || !request.user.is_staff then
    .error (.validationError "error")
  else if inst.user_id != some request.user.id then
    .error (.validationError "error")
  else
    .ok ()

/-- `RemoveBookmarkForm.save`: deletes the bound bookmark (by primary key)
when `commit` is true, otherwise touches nothing, and returns `None`. -/
def RemoveBookmarkForm.save (inst : Bookmark) (commit : Bool)
    (db : List Bookmark) : List Bookmark :=
  if commit then db.filter (fun b => !(b.pk == inst.pk)) else db

/-- `ToggleApplicationPinForm.clean`: the requester must be an authenticated
staff user, else `ValidationError('error')`. -/
def ToggleApplicationPinForm.clean (request : Request) (app_label : String) :
    Except JetError String :=
  if !user_is_authenticated request.user || !request.user.is_staff then
    .error (.validationError "error")
  else
    .ok app_label

/-- `ToggleApplicationPinForm.save`: when `commit` is true, fetches the pin
matching `(app_label, request.user)` with `objects.get`; if exactly one row
matches it is deleted and the call returns `False`, if none matches a new
pin for the requester is created and the call returns `True`, and if
several match `objects.get` raises `MultipleObjectsReturned`, which the
method does not catch.  When `commit` is false nothing runs and Python
returns `None`. -/
def ToggleApplicationPinForm.save (request : Request) (app_label : String)
    (commit : Bool) (db : PinDb) : Except JetError (Option Bool × PinDb) :=
  if commit then
    match db.rows.filter
        (fun p => p.app_label == app_label && p.user_id == request.user.id) with
    | [pinned_app] =>
        .ok (some false,
          { db with rows := db.rows.filter (fun p => !(p.pk == pinned_app.pk)) })
    | [] =>
        .ok (some true,
          { rows := db.rows ++
              [{ pk := db.next_pk, app_label := app_label,
                 user_id := request.user.id }]
            next_pk := db.next_pk + 1 })
    | _ => .error .multipleObjectsReturned
  else
    .ok (none, db)

/-- The `Permission.objects.filter` call of `ModelLookupForm.clean`:
the permission rows for the given content type whose codename starts with
`change_` or `view_`. -/
def lookupPerms (env : LookupEnv) (content_type : Nat) : List Perm :=
  env.permissions.filter (fun p =>
    (strStartsWith p.codename "change_" || strStartsWith p.codename "view_")
      && p.content_type == content_type)

/-- The permission loop of `ModelLookupForm.clean`: true iff the requester
holds some filtered permission, checked as `<app_label>.<codename>`. -/
def permissionGranted (env : LookupEnv) (u : User) (app_label : String)
    (content_type : Nat) : Bool :=
  (lookupPerms env content_type).any (fun p =>
    u.has_perm (app_label ++ "." ++ p.codename))

/-- `ModelLookupForm.clean`: after field cleaning, (1) the requester must be
an authenticated staff user, else `ValidationError('error')`; (2)
`get_model(app_label, model)` must resolve, else `ValidationError('error')`;
(3) among the permission rows for the model's content type whose codename
starts with `change_` or `view_`, the requester must hold at least one,
checked as `<app_label>.<codename>`, else the permission-denied
`ValidationError`.  On success the resolved model class is stored on the
form. -/
def ModelLookupForm.clean (env : LookupEnv) (request : Request)
    (data : LookupCleaned) : Except JetError (ModelCls × LookupCleaned) :=
  if !user_is_authenticated request.user || !request.user.is_staff then
    .error (.validationError "error")
  else
    match env.registry.lookup (data.app_label, data.model) with
    | none => .error (.validationError "error")
    | some model_cls =>
      let permission_granted :=
        permissionGranted env request.user data.app_label model_cls.ct
      if !permission_granted then
        .error (.validationError
          ("Permission denied for " ++ model_cls.name ++ " to the current user."))
      else
        .ok (model_cls, data)

/-- The queryset built by the first half of `ModelLookupForm.lookup` when
`'q' in self.cleaned_data`: defining both hooks raises
`NotImplementedError`; `autocomplete_search_query` alone is called and its
result deduplicated; `autocomplete_search_fields` alone OR-combines an
`icontains` filter per field over the model's objects (a `reduce` that
raises `TypeError` on an empty field list) and deduplicates; neither hook
gives `objects.none()`. -/
def searchQs (m : ModelCls) (q : String) (user : Option User) :
    Except JetError (List Row) :=
  match m.autocomplete_search_fields, m.autocomplete_search_query with
  | some _, some _ => .error .notImplementedError
  | none, some f => .ok ((f q user).dedup)
  | some search_fields, none =>
      match search_fields with
      | [] => .error .typeError
      | _ => .ok ((m.objects.filter (fun row =>
          search_fields.any (fun field => icontains (row.fieldVal field) q))).dedup)
  | none, none => .ok []

/-- The item mapping at the end of `lookup`:
`{'id': instance.pk, 'text': get_model_instance_label(instance)}`. -/
def toItem (r : Row) : Item :=
  { id := r.pk, text := get_model_instance_label r }

/-- `ModelLookupForm.lookup`: builds the queryset from `q` (an absent `q`
gives `objects.none()`), paginates with `limit = page_size or 100`,
`page = page or 1`, `offset = (page - 1) * limit` and the slice
`qs[offset : offset + limit]` (a negative offset makes the queryset raise
`AssertionError`), then either applies `autocomplete_search_filter` to the
page and reports the count as unknown, or counts the unsliced queryset;
finally maps each instance to `{id: pk, text: label}`. -/
def ModelLookupForm.lookup (m : ModelCls) (c : LookupCleaned)
    (user : Option User) : Except JetError (List Item × Option Nat) :=
  match (match c.q with
         | some q => searchQs m q user
         | none => Except.ok []) with
  | .error e => .error e
  | .ok qs =>
    let limit := pyOr c.page_size 100
    let page := pyOr c.page 1
    let offset := (page - 1) * limit
    if offset < 0 then
      .error .assertionError
    else
      let items := (qs.drop offset.toNat).take limit.toNat
      match m.autocomplete_search_filter with
      | some hook => .ok ((hook items).map toItem, none)
      | none => .ok (items.map toItem, some qs.length)

/-! Concrete instances used to evaluate the definitions. -/

/-- A searchable row whose single field `name` equals its label. -/
def rowW (n : Nat) : Row :=
  { pk := n, label := "row" ++ toString n, fields := [("name", "row" ++ toString n)] }

/-- A model with one row and only the `autocomplete_search_fields` hook. -/
def mC1 : ModelCls :=
  { name := "M", ct := 1,
    objects := [{ pk := 1, label := "foo", fields := [("name", "foo")] }],
    autocomplete_search_fields := some ["name"],
    autocomplete_search_query := none,
    autocomplete_search_filter := none }

/-- The same model with an `autocomplete_search_filter` hook added. -/
def mHookW : ModelCls :=
  { mC1 with autocomplete_search_filter := some List.reverse }

/-- A model defining both search hooks. -/
def mBoth : ModelCls :=
  { name := "M", ct := 1, objects := [],
    autocomplete_search_fields := some ["name"],
    autocomplete_search_query := some (fun _ _ => []),
    autocomplete_search_filter := none }

/-- Submitted lookup data with the `q` parameter omitted. -/
def rawNoQ : LookupRaw :=
  { app_label := "a", model := "m", q := none, page := none,
    page_size := none, object_id := none }

/-- Submitted lookup data with `q` present but empty. -/
def rawEmptyQ : LookupRaw :=
  { rawNoQ with q := some "" }

/-- The 25 matching rows of the pagination scenario. -/
def qs25 : List Row :=
  (List.range 25).map (fun n => rowW (n + 1))

/-- A model holding those 25 rows, searchable via the `name` field. -/
def m25 : ModelCls :=
  { name := "M", ct := 1, objects := qs25,
    autocomplete_search_fields := some ["name"],
    autocomplete_search_query := none,
    autocomplete_search_filter := none }

/-- Submitted lookup data asking for page 2 with page size 10. -/
def raw25 : LookupRaw :=
  { app_label := "a", model := "m", q := some "row", page := some 2,
    page_size := some 10, object_id := none }

/-- An authenticated staff user holding view permission on model `m` of app
`a` and the bookmark permission. -/
def uStaffW : User :=
  { id := 7, is_authenticated := true, is_staff := true,
    perms := ["a.view_m", "jet.change_bookmark"] }

/-- An authenticated user without the staff flag. -/
def uNoStaffW : User :=
  { id := 8, is_authenticated := true, is_staff := false, perms := [] }

/-- An authenticated staff user holding no permissions. -/
def uNoPermW : User :=
  { id := 9, is_authenticated := true, is_staff := true, perms := [] }

def rqStaffW : Request := { user := uStaffW }

def rqNoStaffW : Request := { user := uNoStaffW }

def rqNoPermW : Request := { user := uNoPermW }

/-- A framework environment registering model `m` under app `a` with
content type 1 and a `view_m` permission row for it. -/
def envW : LookupEnv :=
  { registry := [(("a", "m"), mC1)],
    permissions := [{ codename := "view_m", content_type := 1 }] }

/-- Cleaned lookup data naming the registered model. -/
def dW : LookupCleaned := cleanFields rawNoQ

/-- Cleaned lookup data naming an unregistered model. -/
def dMissingW : LookupCleaned :=
  { dW with model := "absent" }

/-- A bookmark owned by user 3. -/
def bmW : Bookmark := { pk := 1, url := "u", title := "t", user_id := some 3 }

/-- A pin table holding one unrelated pin. -/
def pdbW : PinDb :=
  { rows := [{ pk := 1, app_label := "other", user_id := 3 }], next_pk := 2 }

/-! Theorems settling the claims. -/

/-- C1: the claim states that a validated `ModelLookupForm` with `q` empty
or omitted returns an empty item list and count 0 (or `None`) regardless of
the model's autocomplete hooks.  The code disagrees: a `CharField` with
`required=False` always leaves `q` in `cleaned_data` (as `''` when the
parameter is empty or omitted), so the `'q' in self.cleaned_data` test is
always true on a validated form, the hooks run on the empty query, and an
`icontains ''` filter matches every row.  Evaluating the code at the
failing input: a model whose `autocomplete_search_fields` is `['name']`
and whose table holds one row labelled `foo`, with `q` omitted, yields
that row and count 1 — not an empty list and count 0.  The cleaned `q` of
the omitted and of the empty submission coincide, so the same run covers
`q=""`. -/
theorem lookup_empty_q_still_runs_hooks :
    ModelLookupForm.lookup mC1 (cleanFields rawNoQ) none =
        .ok ([{ id := 1, text := "foo" }], some 1) ∧
      cleanFields rawNoQ = cleanFields rawEmptyQ := by
  exact ⟨rfl, rfl⟩

/-- C2: for every model class defining both `autocomplete_search_fields`
and `autocomplete_search_query`, `lookup` on a validated form raises
`NotImplementedError` before any search strategy runs, and this is never a
permission or validation error. -/
theorem lookup_both_hooks_config_error (m : ModelCls) (raw : LookupRaw)
    (user : Option User)
    (hf : m.autocomplete_search_fields.isSome = true)
    (hq : m.autocomplete_search_query.isSome = true) :
    ModelLookupForm.lookup m (cleanFields raw) user =
        .error .notImplementedError ∧
      ∀ msg, ModelLookupForm.lookup m (cleanFields raw) user ≠
        .error (.validationError msg) := by
  obtain ⟨a, ha⟩ := Option.isSome_iff_exists.mp hf
  obtain ⟨b, hb⟩ := Option.isSome_iff_exists.mp hq
  have hmain : ModelLookupForm.lookup m (cleanFields raw) user =
      .error .notImplementedError := by
    simp [ModelLookupForm.lookup, cleanFields, searchQs, ha, hb]
  refine ⟨hmain, fun msg h => ?_⟩
  rw [hmain] at h
  exact JetError.noConfusion (Except.error.inj h)

/-- C2 witness: a concrete model with both hooks makes a validated lookup
fail with the configuration error. -/
theorem lookup_both_hooks_config_error_witness :
    ModelLookupForm.lookup mBoth (cleanFields rawNoQ) none =
      .error .notImplementedError :=
  (lookup_both_hooks_config_error mBoth rawNoQ none rfl rfl).1

/-- C4: a requester who is unauthenticated or not staff fails the clean
step of all four forms with the `ValidationError('error')` rejection, no
matter what else was submitted. -/
theorem forms_reject_non_staff (r : Request)
    (h : user_is_authenticated r.user = false ∨ r.user.is_staff = false) :
    (∀ data, AddBookmarkForm.clean r data =
        .error (.validationError "error")) ∧
      (∀ inst, RemoveBookmarkForm.clean r inst =
        .error (.validationError "error")) ∧
      (∀ app, ToggleApplicationPinForm.clean r app =
        .error (.validationError "error")) ∧
      (∀ env data, ModelLookupForm.clean env r data =
        .error (.validationError "error")) := by
  have hcond : (!user_is_authenticated r.user || !r.user.is_staff) = true := by
    rcases h with h | h <;> simp [h]
  exact ⟨fun data => by simp [AddBookmarkForm.clean, hcond],
    fun inst => by simp [RemoveBookmarkForm.clean, hcond],
    fun app => by simp [ToggleApplicationPinForm.clean, hcond],
    fun env data => by simp [ModelLookupForm.clean, hcond]⟩

/-- C4 witness: a non-staff authenticated requester is rejected by each of
the four forms on concrete, otherwise valid input. -/
theorem forms_reject_non_staff_witness :
    AddBookmarkForm.clean rqNoStaffW { url := "u", title := "t" } =
        .error (.validationError "error") ∧
      RemoveBookmarkForm.clean rqNoStaffW bmW =
        .error (.validationError "error") ∧
      ToggleApplicationPinForm.clean rqNoStaffW "a" =
        .error (.validationError "error") ∧
      ModelLookupForm.clean envW rqNoStaffW dW =
        .error (.validationError "error") := by
  obtain ⟨h1, h2, h3, h4⟩ := forms_reject_non_staff rqNoStaffW (Or.inr rfl)
  exact ⟨h1 _, h2 _, h3 _, h4 _ _⟩

/-- C7: an authenticated staff requester who does not own the bound
bookmark still fails `RemoveBookmarkForm` validation. -/
theorem removeBookmark_requires_ownership (r : Request) (inst : Bookmark)
    (hauth : user_is_authenticated r.user = true)
    (hstaff : r.user.is_staff = true)
    (howner : inst.user_id ≠ some r.user.id) :
    RemoveBookmarkForm.clean r inst = .error (.validationError "error") := by
  have h2 : (inst.user_id != some r.user.id) = true := bne_iff_ne.mpr howner
  simp [RemoveBookmarkForm.clean, hauth, hstaff, h2]

/-- C7 witness: the staff user 7 cannot validate removal of user 3's
bookmark. -/
theorem removeBookmark_requires_ownership_witness :
    RemoveBookmarkForm.clean rqStaffW bmW =
      .error (.validationError "error") :=
  removeBookmark_requires_ownership rqStaffW bmW rfl rfl (by decide)

/-- C10: a validated `ToggleApplicationPinForm` saved with `commit=False`
performs no state change and returns `None`, telling the caller nothing
about the pin state. -/
theorem toggle_commit_false_noop (r : Request) (app : String) (db : PinDb) :
    ToggleApplicationPinForm.save r app false db = .ok (none, db) := rfl

/-- C3: on a queryset the search built successfully, with no
`autocomplete_search_filter` hook and a non-negative offset, `lookup`
slices with `limit = page_size or 100`, `page = page or 1`,
`offset = (page - 1) * limit`, returning the items of `qs[offset :
offset + limit]` and the total match count. -/
theorem lookup_pagination (m : ModelCls) (c : LookupCleaned)
    (user : Option User) (q : String) (qs : List Row)
    (hq : c.q = some q)
    (hs : searchQs m q user = .ok qs)
    (hfil : m.autocomplete_search_filter = none)
    (hoff : 0 ≤ (pyOr c.page 1 - 1) * pyOr c.page_size 100) :
    ModelLookupForm.lookup m c user =
      .ok (((qs.drop ((pyOr c.page 1 - 1) * pyOr c.page_size 100).toNat).take
              (pyOr c.page_size 100).toNat).map toItem,
        some qs.length) := by
  simp [ModelLookupForm.lookup, hq, hs, hfil, not_lt.mpr hoff]

/-- C3 witness: with `page_size=10`, `page=2` and 25 matching rows, the
lookup returns items 11 to 20 and count 25. -/
theorem lookup_pagination_witness :
    ModelLookupForm.lookup m25 (cleanFields raw25) none =
      .ok ([{ id := 11, text := "row11" }, { id := 12, text := "row12" },
            { id := 13, text := "row13" }, { id := 14, text := "row14" },
            { id := 15, text := "row15" }, { id := 16, text := "row16" },
            { id := 17, text := "row17" }, { id := 18, text := "row18" },
            { id := 19, text := "row19" }, { id := 20, text := "row20" }],
        some 25) := by
  have h := lookup_pagination m25 (cleanFields raw25) none "row" qs25
    rfl rfl rfl (by decide)
  exact h

/-- C8: on a successfully built queryset with a non-negative offset, a
model exposing `autocomplete_search_filter` has the hook applied to the
already-sliced page and the count reported as `None`, while a model
without it gets the full pre-pagination match count. -/
theorem lookup_count_reporting (m : ModelCls) (c : LookupCleaned)
    (user : Option User) (q : String) (qs : List Row)
    (hq : c.q = some q)
    (hs : searchQs m q user = .ok qs)
    (hoff : 0 ≤ (pyOr c.page 1 - 1) * pyOr c.page_size 100) :
    (∀ hook, m.autocomplete_search_filter = some hook →
        ModelLookupForm.lookup m c user =
          .ok ((hook ((qs.drop
                  ((pyOr c.page 1 - 1) * pyOr c.page_size 100).toNat).take
                (pyOr c.page_size 100).toNat)).map toItem, none)) ∧
      (m.autocomplete_search_filter = none →
        ModelLookupForm.lookup m c user =
          .ok (((qs.drop
                  ((pyOr c.page 1 - 1) * pyOr c.page_size 100).toNat).take
                (pyOr c.page_size 100).toNat).map toItem,
            some qs.length)) := by
  constructor
  · intro hook hfil
    simp [ModelLookupForm.lookup, hq, hs, hfil, not_lt.mpr hoff]
  · intro hfil
    simp [ModelLookupForm.lookup, hq, hs, hfil, not_lt.mpr hoff]

/-- C8 witness: the same one-row search reports count `None` when the
model post-filters the page and count 1 when it does not. -/
theorem lookup_count_reporting_witness :
    ModelLookupForm.lookup mHookW (cleanFields rawEmptyQ) none =
        .ok ([{ id := 1, text := "foo" }], none) ∧
      ModelLookupForm.lookup mC1 (cleanFields rawEmptyQ) none =
        .ok ([{ id := 1, text := "foo" }], some 1) := by
  constructor
  · exact (lookup_count_reporting mHookW (cleanFields rawEmptyQ) none ""
      [{ pk := 1, label := "foo", fields := [("name", "foo")] }]
      rfl rfl (by decide)).1 List.reverse rfl
  · exact (lookup_count_reporting mC1 (cleanFields rawEmptyQ) none ""
      [{ pk := 1, label := "foo", fields := [("name", "foo")] }]
      rfl rfl (by decide)).2 rfl

/-- C5: records created through these forms always belong to the
requester: `AddBookmarkForm.save` overwrites the instance's user with
`request.user` before persisting (whatever user the caller had put on the
instance), and every pin row `ToggleApplicationPinForm.save` adds is keyed
to `request.user`. -/
theorem created_records_owned_by_requester (r : Request) (inst0 : Bookmark)
    (commit : Bool) (db : List Bookmark) (pdb : PinDb) (app : String) :
    (AddBookmarkForm.save r inst0 commit db).1.user_id = some r.user.id ∧
      (∀ b ∈ (AddBookmarkForm.save r inst0 commit db).2,
        b ∈ db ∨ b.user_id = some r.user.id) ∧
      (∀ res, ToggleApplicationPinForm.save r app commit pdb = .ok res →
        ∀ p ∈ res.2.rows, p ∈ pdb.rows ∨ p.user_id = r.user.id) := by
  refine ⟨?_, ?_, ?_⟩
  · cases commit <;> rfl
  · intro b hb
    cases commit with
    | false => exact Or.inl hb
    | true =>
      simp only [AddBookmarkForm.save, if_true, List.mem_append,
        List.mem_singleton] at hb
      rcases hb with h | h
      · exact Or.inl h
      · subst h
        exact Or.inr rfl
  · intro res hres p hp
    cases commit with
    | false =>
      simp only [ToggleApplicationPinForm.save, Bool.false_eq_true,
        if_false, Except.ok.injEq] at hres
      subst hres
      exact Or.inl hp
    | true =>
      simp only [ToggleApplicationPinForm.save, if_true] at hres
      cases hm : pdb.rows.filter
          (fun x => x.app_label == app && x.user_id == r.user.id) with
      | nil =>
        rw [hm] at hres
        simp only [Except.ok.injEq] at hres
        subst hres
        simp only [List.mem_append, List.mem_singleton] at hp
        rcases hp with h | h
        · exact Or.inl h
        · subst h
          exact Or.inr rfl
      | cons pin rest =>
        cases rest with
        | nil =>
          rw [hm] at hres
          simp only [Except.ok.injEq] at hres
          subst hres
          exact Or.inl (List.mem_of_mem_filter hp)
        | cons pin2 rest2 =>
          rw [hm] at hres
          cases hres

/-- C5 witness: saving a bookmark instance pre-filled with user 3 on
behalf of requester 7 persists it owned by 7. -/
theorem created_records_owned_by_requester_witness :
    (AddBookmarkForm.save rqStaffW bmW true []).1.user_id = some 7 :=
  (created_records_owned_by_requester rqStaffW bmW true [] pdbW "a").1

/-- C6: starting from a well-formed pin table with no `(app_label, user)`
pin for the requester, the first committed toggle creates the pin and
returns true, and a second committed toggle deletes it and returns false,
leaving exactly the original rows. -/
theorem toggle_pin_round_trip (r : Request) (app : String) (db : PinDb)
    (hwf : db.wf)
    (habs : db.rows.filter
      (fun p => p.app_label == app && p.user_id == r.user.id) = []) :
    ∃ db1, ToggleApplicationPinForm.save r app true db = .ok (some true, db1) ∧
      ∃ db2, ToggleApplicationPinForm.save r app true db1 = .ok (some false, db2) ∧
        db2.rows = db.rows := by
  refine ⟨⟨db.rows ++
      ([{ pk := db.next_pk, app_label := app, user_id := r.user.id }] :
        List PinnedApplication),
      db.next_pk + 1⟩, ?_, ?_⟩
  · simp [ToggleApplicationPinForm.save, habs]
  · have hfil2 : (db.rows ++
        ([{ pk := db.next_pk, app_label := app, user_id := r.user.id }] :
          List PinnedApplication)).filter
          (fun p => p.app_label == app && p.user_id == r.user.id) =
        ([{ pk := db.next_pk, app_label := app, user_id := r.user.id }] :
          List PinnedApplication) := by
      rw [List.filter_append, habs]
      simp
    refine ⟨⟨(db.rows ++
        ([{ pk := db.next_pk, app_label := app, user_id := r.user.id }] :
          List PinnedApplication)).filter
          (fun p => !(p.pk == db.next_pk)),
        db.next_pk + 1⟩, ?_, ?_⟩
    · simp only [ToggleApplicationPinForm.save, if_true]
      rw [hfil2]
    · rw [List.filter_append]
      have h1 : db.rows.filter (fun p => !(p.pk == db.next_pk)) = db.rows := by
        refine List.filter_eq_self.mpr (fun p hp => ?_)
        have hlt := hwf p hp
        simp only [Bool.not_eq_true', beq_eq_false_iff_ne]
        exact Nat.ne_of_lt hlt
      have h2 :
          ([{ pk := db.next_pk, app_label := app, user_id := r.user.id }] :
            List PinnedApplication).filter
            (fun p => !(p.pk == db.next_pk)) = [] := by
        simp
      rw [h1, h2, List.append_nil]

/-- C6 witness: a concrete round trip on a table holding one unrelated
pin. -/
theorem toggle_pin_round_trip_witness :
    pdbW.wf ∧
      ∃ db1, ToggleApplicationPinForm.save rqStaffW "app" true pdbW =
          .ok (some true, db1) ∧
        ∃ db2, ToggleApplicationPinForm.save rqStaffW "app" true db1 =
            .ok (some false, db2) ∧
          db2.rows = pdbW.rows :=
  ⟨by show ∀ p ∈ pdbW.rows, p.pk < pdbW.next_pk
      decide,
    toggle_pin_round_trip rqStaffW "app" pdbW
      (by show ∀ p ∈ pdbW.rows, p.pk < pdbW.next_pk
          decide) rfl⟩

/-- C9: `ModelLookupForm.clean` checks in order and stops at the first
failure: an unauthenticated or non-staff requester is rejected whatever the
rest of the data; with an authenticated staff requester, an unresolvable
`(app_label, model)` pair raises the generic `ValidationError`; with a
resolved model, holding none of the `change_`/`view_` permissions of its
content type (checked as `<app_label>.<codename>`) raises the
permission-denied `ValidationError`; and passing all three checks
succeeds. -/
theorem modelLookup_clean_check_order (env : LookupEnv) (r : Request)
    (d : LookupCleaned) :
    ((user_is_authenticated r.user = false ∨ r.user.is_staff = false) →
        ModelLookupForm.clean env r d = .error (.validationError "error")) ∧
      (user_is_authenticated r.user = true → r.user.is_staff = true →
        env.registry.lookup (d.app_label, d.model) = none →
        ModelLookupForm.clean env r d = .error (.validationError "error")) ∧
      (∀ m, user_is_authenticated r.user = true → r.user.is_staff = true →
        env.registry.lookup (d.app_label, d.model) = some m →
        permissionGranted env r.user d.app_label m.ct = false →
        ModelLookupForm.clean env r d = .error (.validationError
          ("Permission denied for " ++ m.name ++ " to the current user."))) ∧
      (∀ m, user_is_authenticated r.user = true → r.user.is_staff = true →
        env.registry.lookup (d.app_label, d.model) = some m →
        permissionGranted env r.user d.app_label m.ct = true →
        ModelLookupForm.clean env r d = .ok (m, d)) := by
  refine ⟨fun h => ?_, fun h1 h2 h3 => ?_, fun m h1 h2 h3 h4 => ?_,
    fun m h1 h2 h3 h4 => ?_⟩
  · have hcond : (!user_is_authenticated r.user || !r.user.is_staff) = true := by
      rcases h with h | h <;> simp [h]
    simp [ModelLookupForm.clean, hcond]
  · simp [ModelLookupForm.clean, h1, h2, h3]
  · simp [ModelLookupForm.clean, h1, h2, h3, h4]
  · simp [ModelLookupForm.clean, h1, h2, h3, h4]

/-- C9 witness: against a registry holding model `m` of app `a` with
content type 1 and a `view_m` permission row, the staff holder of `a.view_m`
passes, the same user naming an unregistered model gets the generic
rejection, a staff user with no permissions gets the permission-denied
rejection, and a non-staff user is rejected outright. -/
theorem modelLookup_clean_check_order_witness :
    ModelLookupForm.clean envW rqStaffW dW = .ok (mC1, dW) ∧
      ModelLookupForm.clean envW rqStaffW dMissingW =
        .error (.validationError "error") ∧
      ModelLookupForm.clean envW rqNoPermW dW =
        .error (.validationError
          ("Permission denied for " ++ mC1.name ++ " to the current user.")) ∧
      ModelLookupForm.clean envW rqNoStaffW dW =
        .error (.validationError "error") := by
  refine ⟨?_, ?_, ?_, ?_⟩
  · exact (modelLookup_clean_check_order envW rqStaffW dW).2.2.2 mC1
      rfl rfl rfl rfl
  · exact (modelLookup_clean_check_order envW rqStaffW dMissingW).2.1
      rfl rfl rfl
  · exact (modelLookup_clean_check_order envW rqNoPermW dW).2.2.1 mC1
      rfl rfl rfl rfl
  · exact (modelLookup_clean_check_order envW rqNoStaffW dW).1 (Or.inr rfl)
